import Mathlib

/-!
Shallow embedding of `recipes/dcase2021_task4_baseline/train_sed.py`.

The script orchestrates training and evaluation of a sound event detection
model. We embed the pure decision logic of that file: the epoch-length
computation, the resampling/duration-regeneration control flow, the weak-set
train/validation split, the test-from-checkpoint configuration merge, the
fit/load/test phase selection, the optimizer and scheduler construction, the
fast_dev_run trainer settings, the global seeding condition, and the
composition of dataset views. External library calls (pandas, torch,
pytorch_lightning) are embedded by the values the script passes to them and,
for `DataFrame.sample`, by an explicit deterministic seeded shuffle matching
the documented contract (a seeded draw of `round(frac * n)` distinct rows).
-/

namespace TrainSed

/-! ## Configuration

The YAML configuration has five top-level sections: `data`, `net`, `feats`,
`training`, `opt` (spec section 6).  For the configuration-merge logic of the
main block (train_sed.py lines 244-255) only the section boundaries matter,
so the sections are type parameters. -/

/-- The five-section configuration mapping loaded from the YAML file. -/
structure Config (Data Net Feats Training Opt : Type) where
  data : Data
  net : Net
  feats : Feats
  training : Training
  opt : Opt

/-- train_sed.py lines 246-250: on `test_from_checkpoint`, the stored
`hyper_parameters` of the checkpoint (`ckpt`) become the effective
configuration after its `data` section is overwritten with the `data`
section of the currently loaded configuration (`current`):
`configs_ckpt = checkpoint["hyper_parameters"]; configs_ckpt["data"] = configs["data"]; configs = configs_ckpt`. -/
def test_from_checkpoint_config {D N F T O : Type} (current ckpt : Config D N F T O) :
    Config D N F T O :=
  { ckpt with data := current.data }

/-! ## Epoch length (train_sed.py lines 144-153)

`tot_train_data = [synth_set, weak_set, unlabeled_set]` (line 132); the
script computes
`epoch_len = min([len(tot_train_data[i]) // (batch_size[i] * accumulate_batches) for i in range(len(tot_train_data))])`.
Python `min` of an empty list raises, hence the `Option` result; the list
here always has three entries. Python `//` on non-negative ints is floor
division, embedded as `Nat` division. -/

/-- Number of combined batches per epoch, from the sizes of the three
training subsets in order [synth, weak, unlabeled], the per-subset batch
sizes `training.batch_size`, and `training.accumulate_batches`. -/
def epoch_len (synth_size weak_size unlabeled_size : Nat)
    (batch_size : List Nat) (accumulate_batches : Nat) : Option Nat :=
  let tot_sizes := [synth_size, weak_size, unlabeled_size]
  ((List.range tot_sizes.length).map fun indx =>
      tot_sizes.getD indx 0 / (batch_size.getD indx 0 * accumulate_batches)).min?

/-! ## Run phases (train_sed.py lines 156-228)

After the datasets are built, `single_run` unconditionally constructs the
model, optimizer, scheduler and trainer, then branches on `test_state_dict`:
`if test_state_dict is None: trainer.fit(...) else: desed_training.load_state_dict(test_state_dict)`,
and finally always calls `trainer.test(...)`.  No step of `single_run`
inspects `epoch_len` for zero or raises a configuration error; `epoch_len`
only feeds the scheduler warmup length (line 159). -/

/-- Observable phases of `single_run` after dataset construction. `S` is the
type of state dicts. -/
inductive RunAction (S : Type) where
  | configError
  | buildTrainer
  | fit
  | loadStateDict (sd : S)
  | testRun
deriving DecidableEq

/-- The sequence of phases `single_run` executes (lines 198-228): build the
trainer, then fit or load depending on `test_state_dict`, then test. -/
def single_run_phases {S : Type} (test_state_dict : Option S) : List (RunAction S) :=
  [RunAction.buildTrainer] ++
    (match test_state_dict with
      | none => [RunAction.fit]
      | some sd => [RunAction.loadStateDict sd]) ++
    [RunAction.testRun]

/-- `single_run` up to the trainer run: the computed epoch length together
with the executed phases.  The phase list does not depend on the epoch
length, mirroring the absence of any zero-length check in the source. -/
def single_run_trace {S : Type} (synth_size weak_size unlabeled_size : Nat)
    (batch_size : List Nat) (accumulate_batches : Nat)
    (test_state_dict : Option S) : Option Nat × List (RunAction S) :=
  (epoch_len synth_size weak_size unlabeled_size batch_size accumulate_batches,
   single_run_phases test_state_dict)

/-! ## Resampling and duration generation (train_sed.py lines 26-43)

```
for dset in dsets:
    computed = resample_folder(...)
for base_set in ["synth_val", "test"]:
    if not os.path.exists(config_data[base_set + "_dur"]) or computed:
        generate_tsv_wav_durations(...)
```
`computed` is reassigned on every loop iteration, so after the loop it holds
the result for the LAST folder only (`test_folder`).  `resample_folder` and
the filesystem are abstracted into an environment recording, per folder,
whether resampling produced new files, and, per duration file, whether it
already exists. -/

/-- The five data folders resampled, in source order (lines 27-33). -/
def dsets : List String :=
  ["synth_folder", "synth_val_folder", "weak_folder", "unlabeled_folder", "test_folder"]

/-- Environment of one `resample_data_generate_durations` call: which
folders have new resampling work, and which duration files exist. -/
structure ResampleEnv where
  newWork : String → Bool
  durExists : String → Bool

/-- Value of the Python variable `computed` after the first loop: each
iteration overwrites it, so it ends as the value for the last folder.
(The `false` seed is unreachable: `dsets` is non-empty, and in Python an
empty loop would leave `computed` unbound.) -/
def computedAfterLoop (env : ResampleEnv) : Bool :=
  dsets.foldl (fun _ dset => env.newWork dset) false

/-- The base sets (among `synth_val`, `test`) whose duration TSV is
regenerated by `resample_data_generate_durations` (lines 39-43). -/
def resample_data_generate_durations (env : ResampleEnv) : List String :=
  ["synth_val", "test"].filter fun base_set =>
    !env.durExists (base_set ++ "_dur") || computedAfterLoop env

/-! ## Weak-set train/validation split (train_sed.py lines 87-92)

```
weak_df = pd.read_csv(...)
train_weak_df = weak_df.sample(frac=config["training"]["weak_split"], random_state=config["training"]["seed"])
valid_weak_df = weak_df.drop(train_weak_df.index).reset_index(drop=True)
train_weak_df = train_weak_df.reset_index(drop=True)
```
`DataFrame.sample(frac, random_state)` draws `round(frac * n)` distinct rows
without replacement, deterministically in `(random_state, frac, rows)`; the
library generator is opaque, embedded here as an explicit LCG-keyed shuffle
of the row indices (any injective seeded choice satisfies the properties
proved below).  `drop` keeps the remaining rows in their original order. -/

/-- Pseudo-random sort key mixing the seed and a row index, middle-square
style (stands in for the opaque pandas generator; only determinism matters
for the claims). -/
def sampleKey (seed i : Nat) : Nat :=
  (((i + 1) * (seed + 1) * 1103515245 + 12345) ^ 2 / 2 ^ 15) % 2 ^ 31

/-- The seeded permutation of row indices `0, ..., n-1` from which
`DataFrame.sample` draws, modelled as a key-driven shuffle (ties in the key
are broken by index, so the order relation is total). -/
def samplePermutation (seed n : Nat) : List Nat :=
  (List.range n).mergeSort fun a b =>
    sampleKey seed a < sampleKey seed b ||
      (sampleKey seed a == sampleKey seed b && a ≤ b)

/-- Number of rows drawn by `DataFrame.sample(frac=...)`: `round(frac * n)`.
(Mathlib `round` resolves half-integer ties upward while Python rounds half
to even; none of the claims involves a tie.) -/
def sampleCount (frac : ℚ) (n : Nat) : Nat :=
  (round (frac * n)).toNat

/-- Indices of the rows of `train_weak_df`, in sampled order. -/
def sampledIndices (seed n : Nat) (frac : ℚ) : List Nat :=
  (samplePermutation seed n).take (sampleCount frac n)

/-- Indices of the rows of `valid_weak_df`: `weak_df.drop(train_weak_df.index)`
keeps the non-sampled rows in original order. -/
def droppedIndices (seed n : Nat) (frac : ℚ) : List Nat :=
  (List.range n).filter fun i => !(sampledIndices seed n frac).contains i

/-- The weak training split: rows of `weak_df` at the sampled indices,
reindexed (`reset_index(drop=True)`). -/
def train_weak_df {Row : Type} (seed : Nat) (frac : ℚ) (rows : List Row) : List Row :=
  (sampledIndices seed rows.length frac).filterMap fun i => rows[i]?

/-- The weak validation split: the complementary rows, reindexed. -/
def valid_weak_df {Row : Type} (seed : Nat) (frac : ℚ) (rows : List Row) : List Row :=
  (droppedIndices seed rows.length frac).filterMap fun i => rows[i]?

/-! ## Optimizer and scheduler (train_sed.py lines 158-163)

```
opt = torch.optim.Adam(sed_student.parameters(), 1e-3, betas=(0.9, 0.999))
exp_steps = config["training"]["n_epochs_warmup"] * epoch_len
exp_scheduler = {"scheduler": ExponentialWarmup(opt, config["opt"]["lr"], exp_steps), "interval": "step"}
```
The float literals are embedded as the rationals they denote. -/

/-- The constructor arguments of the Adam optimizer. -/
structure AdamArgs where
  lr : ℚ
  beta1 : ℚ
  beta2 : ℚ

/-- The optimizer built by `single_run` (line 158). -/
def adam_opt : AdamArgs :=
  { lr := 1 / 1000, beta1 := 9 / 10, beta2 := 999 / 1000 }

/-- Granularity at which a learning-rate scheduler is advanced. -/
inductive SchedInterval where
  | step
  | epoch

/-- The scheduler dictionary handed to the trainer subclass. -/
structure SchedulerDict where
  target_lr : ℚ
  exp_steps : Nat
  interval : SchedInterval

/-- The ExponentialWarmup scheduler entry built by `single_run`
(lines 159-163), from `opt.lr`, `training.n_epochs_warmup` and the computed
epoch length. -/
def exp_scheduler (opt_lr : ℚ) (n_epochs_warmup epoch_length : Nat) : SchedulerDict :=
  { target_lr := opt_lr
    exp_steps := n_epochs_warmup * epoch_length
    interval := SchedInterval.step }

/-! ## Trainer settings (train_sed.py lines 182-221) -/

/-- A pytorch_lightning batch limit: an integer count of batches, or a
fraction of the data (the source uses `2` versus `1.`). -/
inductive BatchLimit where
  | nBatches (n : Nat)
  | fraction (q : ℚ)
deriving DecidableEq

/-- The trainer arguments that depend on `fast_dev_run`. -/
structure TrainerSettings where
  max_epochs : Nat
  log_every_n_steps : Nat
  flush_logs_every_n_steps : Nat
  limit_train_batches : BatchLimit
  limit_val_batches : BatchLimit
  limit_test_batches : BatchLimit
deriving DecidableEq

/-- Lines 182-196: `n_epochs = config["training"]["n_epochs"] if not fast_dev_run else 3`,
then the two branches setting the logging frequencies and batch limits. -/
def trainer_settings (fast_dev_run : Bool) (n_epochs_cfg : Nat) : TrainerSettings :=
  if fast_dev_run then
    { max_epochs := 3
      log_every_n_steps := 1
      flush_logs_every_n_steps := 1
      limit_train_batches := BatchLimit.nBatches 2
      limit_val_batches := BatchLimit.nBatches 2
      limit_test_batches := BatchLimit.nBatches 2 }
  else
    { max_epochs := n_epochs_cfg
      log_every_n_steps := 40
      flush_logs_every_n_steps := 100
      limit_train_batches := BatchLimit.fraction 1
      limit_val_batches := BatchLimit.fraction 1
      limit_test_batches := BatchLimit.fraction 1 }

/-! ## Global seeding (train_sed.py lines 257-262)

```
seed = configs["training"]["seed"]
if seed:
    torch.random.manual_seed(seed); np.random.seed(seed); random.seed(seed); pl.seed_everything(seed)
```
An integer is truthy in Python iff it is non-zero.  The weak split at
line 89 reads `config["training"]["seed"]` unconditionally. -/

/-- The four global seeding calls guarded by `if seed:`. -/
inductive SeedAction where
  | torchManualSeed
  | numpySeed
  | randomSeed
  | lightningSeedEverything
deriving DecidableEq

/-- Dataflow of the seed in the main block: which global seeding calls run,
and the `random_state` value handed to the weak split. -/
structure MainSeedTrace where
  globalSeeding : List SeedAction
  weakSplitRandomState : Int

/-- Lines 257-262 plus the unconditional read at line 89. -/
def main_seeding (seed : Int) : MainSeedTrace :=
  { globalSeeding :=
      if seed ≠ 0 then
        [SeedAction.torchManualSeed, SeedAction.numpySeed,
         SeedAction.randomSeed, SeedAction.lightningSeedEverything]
      else []
    weakSplitRandomState := seed }

/-! ## Dataset views (train_sed.py lines 79-142)

Six dataset views are constructed; `return_filename=True` is passed exactly
for `synth_val` (line 111), `weak_val` (line 120) and `devtest_dataset`
(line 128); the others use the default (no flag passed).
`valid_dataset = ConcatDataset([synth_val, weak_val, devtest_dataset])`
(lines 139-141) and `test_dataset = devtest_dataset` (line 142). -/

/-- The six dataset views constructed by `single_run`, named as in the
source. -/
inductive DatasetView where
  | synth_set
  | weak_set
  | unlabeled_set
  | synth_val
  | weak_val
  | devtest_dataset
deriving DecidableEq

/-- Whether the view was constructed with `return_filename=True`. -/
def return_filename : DatasetView → Bool
  | DatasetView.synth_val => true
  | DatasetView.weak_val => true
  | DatasetView.devtest_dataset => true
  | _ => false

/-- All views, in construction order (lines 80, 93, 100, 107, 115, 124). -/
def constructedViews : List DatasetView :=
  [DatasetView.synth_set, DatasetView.weak_set, DatasetView.unlabeled_set,
   DatasetView.synth_val, DatasetView.weak_val, DatasetView.devtest_dataset]

/-- Components of the validation ConcatDataset (lines 139-141). -/
def valid_dataset : List DatasetView :=
  [DatasetView.synth_val, DatasetView.weak_val, DatasetView.devtest_dataset]

/-- The test dataset (line 142). -/
def test_dataset : DatasetView :=
  DatasetView.devtest_dataset

/-! ## Helper lemmas for the weak split -/

theorem samplePermutation_perm (seed n : Nat) :
    (samplePermutation seed n).Perm (List.range n) :=
  List.mergeSort_perm _ _

theorem samplePermutation_nodup (seed n : Nat) :
    (samplePermutation seed n).Nodup :=
  ((samplePermutation_perm seed n).nodup_iff).mpr (List.nodup_range n)

theorem samplePermutation_length (seed n : Nat) :
    (samplePermutation seed n).length = n := by
  rw [(samplePermutation_perm seed n).length_eq, List.length_range]

theorem mem_samplePermutation {seed n i : Nat} :
    i ∈ samplePermutation seed n ↔ i < n := by
  rw [(samplePermutation_perm seed n).mem_iff, List.mem_range]

theorem round_le_of_le {x y : ℚ} (h : x ≤ y) : round x ≤ round y := by
  rw [round_eq, round_eq]
  exact Int.floor_mono (by linarith)

theorem sampleCount_le {frac : ℚ} (n : Nat) (h1 : frac ≤ 1) :
    sampleCount frac n ≤ n := by
  have hmul : frac * (n : ℚ) ≤ (n : ℚ) := by
    have := mul_le_mul_of_nonneg_right h1 (show (0 : ℚ) ≤ (n : ℚ) by positivity)
    simpa using this
  have h2 : round (frac * (n : ℚ)) ≤ (n : ℤ) := by
    have := round_le_of_le hmul
    simpa [round_natCast] using this
  simpa [sampleCount, Int.toNat_le] using h2

theorem sampledIndices_length {frac : ℚ} (seed n : Nat) (h1 : frac ≤ 1) :
    (sampledIndices seed n frac).length = sampleCount frac n := by
  rw [sampledIndices, List.length_take, samplePermutation_length]
  exact min_eq_left (sampleCount_le n h1)

theorem sampledIndices_nodup (seed n : Nat) (frac : ℚ) :
    (sampledIndices seed n frac).Nodup :=
  (List.take_sublist _ _).nodup (samplePermutation_nodup seed n)

theorem mem_sampledIndices_lt {seed n i : Nat} {frac : ℚ}
    (h : i ∈ sampledIndices seed n frac) : i < n :=
  mem_samplePermutation.mp (List.mem_of_mem_take h)

theorem mem_droppedIndices {seed n i : Nat} {frac : ℚ} :
    i ∈ droppedIndices seed n frac ↔ i < n ∧ i ∉ sampledIndices seed n frac := by
  simp [droppedIndices, List.mem_filter, List.mem_range, List.contains, List.elem_iff]

theorem droppedIndices_nodup (seed n : Nat) (frac : ℚ) :
    (droppedIndices seed n frac).Nodup :=
  List.Nodup.filter _ (List.nodup_range n)

theorem filter_mem_perm_sampled (seed n : Nat) (frac : ℚ) :
    ((List.range n).filter
        (fun i => (sampledIndices seed n frac).contains i)).Perm
      (sampledIndices seed n frac) := by
  rw [List.perm_ext_iff_of_nodup (List.Nodup.filter _ (List.nodup_range n))
    (sampledIndices_nodup seed n frac)]
  intro a
  simp only [List.mem_filter, List.mem_range, List.contains, List.elem_iff]
  exact ⟨fun h => h.2, fun h => ⟨mem_sampledIndices_lt h, h⟩⟩

theorem sampled_append_dropped_perm (seed n : Nat) (frac : ℚ) :
    (sampledIndices seed n frac ++ droppedIndices seed n frac).Perm (List.range n) := by
  have hsplit := List.filter_append_perm
    (fun i => (sampledIndices seed n frac).contains i) (List.range n)
  have hfm := filter_mem_perm_sampled seed n frac
  have happ := List.Perm.append hfm.symm (List.Perm.refl (droppedIndices seed n frac))
  exact happ.trans hsplit

theorem droppedIndices_length {frac : ℚ} (seed n : Nat) (h1 : frac ≤ 1) :
    (droppedIndices seed n frac).length = n - sampleCount frac n := by
  have hlen := (sampled_append_dropped_perm seed n frac).length_eq
  rw [List.length_append, List.length_range,
    sampledIndices_length seed n h1] at hlen
  omega

theorem filterMap_getElem_range {Row : Type} (rows : List Row) :
    (List.range rows.length).filterMap (fun i => rows[i]?) = rows := by
  induction rows with
  | nil => rfl
  | cons a tl ih =>
    rw [List.length_cons, List.range_succ_eq_map,
      List.filterMap_cons_some (b := a) List.getElem?_cons_zero, List.filterMap_map]
    congr 1
    have hfun : ((fun i => (a :: tl)[i]?) ∘ Nat.succ) = fun i => tl[i]? :=
      funext fun i => List.getElem?_cons_succ
    rw [hfun, ih]

theorem length_filterMap_getElem {Row : Type} (rows : List Row) (l : List Nat)
    (h : ∀ i ∈ l, i < rows.length) :
    (l.filterMap (fun i => rows[i]?)).length = l.length := by
  induction l with
  | nil => rfl
  | cons j t ih =>
    have hj : j < rows.length := h j (List.mem_cons_self j t)
    rw [List.filterMap_cons_some (b := rows[j]) (List.getElem?_eq_getElem hj),
      List.length_cons, List.length_cons,
      ih (fun i hi => h i (List.mem_cons_of_mem j hi))]

/-! ## Theorems -/

/-- C1: for every configuration with three training subset sizes (synth,
weak, unlabeled), per-subset batch sizes (the first three entries of
`training.batch_size`, paired with the subsets in that order) and an
accumulation factor, the epoch length computed by `single_run` equals the
minimum over the subsets of the floor of `size / (batch_size * accumulate)`. -/
theorem epoch_len_eq_min_floor (s w u b0 b1 b2 a : Nat) (rest : List Nat) :
    epoch_len s w u (b0 :: b1 :: b2 :: rest) a =
      some (min (min (s / (b0 * a)) (w / (b1 * a))) (u / (b2 * a))) ∧
    s / (b0 * a) = ⌊(s : ℚ) / ((b0 * a : Nat) : ℚ)⌋₊ ∧
    w / (b1 * a) = ⌊(w : ℚ) / ((b1 * a : Nat) : ℚ)⌋₊ ∧
    u / (b2 * a) = ⌊(u : ℚ) / ((b2 * a : Nat) : ℚ)⌋₊ := by
  refine ⟨rfl, ?_, ?_, ?_⟩ <;>
    rw [Nat.floor_div_nat, Nat.floor_natCast]

/-- C2 counterexample: with subset sizes 1, 1, 1, batch sizes [2, 2, 2] and
accumulation 1, the computed epoch length is 0, yet `single_run` emits no
configuration error: it still builds the trainer and runs fit. -/
theorem single_run_zero_epoch_no_error :
    (single_run_trace 1 1 1 [2, 2, 2] 1 (none : Option Unit)).1 = some 0 ∧
    RunAction.configError ∉ (single_run_trace 1 1 1 [2, 2, 2] 1 (none : Option Unit)).2 ∧
    RunAction.buildTrainer ∈ (single_run_trace 1 1 1 [2, 2, 2] 1 (none : Option Unit)).2 ∧
    RunAction.fit ∈ (single_run_trace 1 1 1 [2, 2, 2] 1 (none : Option Unit)).2 := by
  decide

/-- C2 amended: `single_run` performs no zero-epoch-length check: for every
configuration, including those whose epoch length is zero, it emits no
configuration error and proceeds to construct the trainer (and, when no
test state dict is supplied, to run fit); the epoch length only feeds the
scheduler warmup length. -/
theorem single_run_proceeds_regardless_of_epoch_len {S : Type}
    (s w u : Nat) (bs : List Nat) (a : Nat) (sd : S) :
    (RunAction.configError ∉ (single_run_trace s w u bs a (none : Option S)).2 ∧
     RunAction.buildTrainer ∈ (single_run_trace s w u bs a (none : Option S)).2 ∧
     RunAction.fit ∈ (single_run_trace s w u bs a (none : Option S)).2) ∧
    (RunAction.configError ∉ (single_run_trace s w u bs a (some sd)).2 ∧
     RunAction.buildTrainer ∈ (single_run_trace s w u bs a (some sd)).2) := by
  simp [single_run_trace, single_run_phases]

/-- C3: in the environment where resampling the synth folder produced new
files, the other four folders produced none, and both duration files exist,
`resample_data_generate_durations` regenerates neither duration TSV: the
loop variable `computed` is overwritten each iteration, so only the last
folder (`test_folder`) influences regeneration, contradicting the intent
that new work on any of the five folders triggers it. -/
theorem resample_durations_last_folder_only :
    resample_data_generate_durations
      { newWork := fun d => d == "synth_folder", durExists := fun _ => true } = [] := by
  rfl

/-- C4: for every weak TSV (row list) and every seed, the split is the
deterministic function `(seed, rows) ↦ (train_weak_df, valid_weak_df)`:
the train split has `round(weak_split * n)` rows drawn by the seeded
sample, the validation split has exactly the complementary rows reindexed,
their index sets are disjoint, every row index lands in exactly one side,
and the two splits together are a permutation of the original rows. -/
theorem weak_split_partition {Row : Type} (seed : Nat) (frac : ℚ) (rows : List Row)
    (h1 : frac ≤ 1) :
    (train_weak_df seed frac rows).length = sampleCount frac rows.length ∧
    (valid_weak_df seed frac rows).length = rows.length - sampleCount frac rows.length ∧
    (∀ i, i ∈ sampledIndices seed rows.length frac →
      i ∉ droppedIndices seed rows.length frac) ∧
    (∀ i, (i ∈ sampledIndices seed rows.length frac ∨
      i ∈ droppedIndices seed rows.length frac) ↔ i < rows.length) ∧
    (train_weak_df seed frac rows ++ valid_weak_df seed frac rows).Perm rows := by
  refine ⟨?_, ?_, ?_, ?_, ?_⟩
  · rw [train_weak_df,
      length_filterMap_getElem rows _ (fun i hi => mem_sampledIndices_lt hi),
      sampledIndices_length seed rows.length h1]
  · rw [valid_weak_df,
      length_filterMap_getElem rows _ (fun i hi => (mem_droppedIndices.mp hi).1),
      droppedIndices_length seed rows.length h1]
  · intro i hi hd
    exact (mem_droppedIndices.mp hd).2 hi
  · intro i
    constructor
    · rintro (hi | hi)
      · exact mem_sampledIndices_lt hi
      · exact (mem_droppedIndices.mp hi).1
    · intro hi
      by_cases hs : i ∈ sampledIndices seed rows.length frac
      · exact Or.inl hs
      · exact Or.inr (mem_droppedIndices.mpr ⟨hi, hs⟩)
  · have hperm :=
      (sampled_append_dropped_perm seed rows.length frac).filterMap (fun i => rows[i]?)
    rw [List.filterMap_append, filterMap_getElem_range rows] at hperm
    exact hperm

/-- C4 witness: at seed 42, `weak_split` 9/10 and a weak TSV of 100 rows,
the train split has exactly 90 rows and the validation split exactly 10. -/
theorem weak_split_partition_witness :
    (train_weak_df 42 (9 / 10) (List.range 100)).length = 90 ∧
    (valid_weak_df 42 (9 / 10) (List.range 100)).length = 10 := by
  have h := weak_split_partition 42 (9 / 10) (List.range 100) (by norm_num)
  have hc : sampleCount (9 / 10) (List.range 100).length = 90 := by
    norm_num [sampleCount, round_eq, List.length_range]
    rfl
  refine ⟨?_, ?_⟩
  · rw [h.1, hc]
  · rw [h.2.1, hc, List.length_range]

/-- C5: with `--test_from_checkpoint`, the effective configuration is the
checkpoint configuration with exactly its `data` section replaced by the
current configuration's `data` section; the `net`, `feats`, `training` and
`opt` sections are unchanged from the checkpoint. -/
theorem test_from_checkpoint_config_sections {D N F T O : Type}
    (current ckpt : Config D N F T O) :
    (test_from_checkpoint_config current ckpt).data = current.data ∧
    (test_from_checkpoint_config current ckpt).net = ckpt.net ∧
    (test_from_checkpoint_config current ckpt).feats = ckpt.feats ∧
    (test_from_checkpoint_config current ckpt).training = ckpt.training ∧
    (test_from_checkpoint_config current ckpt).opt = ckpt.opt :=
  ⟨rfl, rfl, rfl, rfl, rfl⟩

/-- C6: `single_run` runs fit iff `test_state_dict` is `None`; when a state
dict is supplied it is loaded instead; in every case exactly one test pass
runs, and it comes last. -/
theorem single_run_fit_iff_no_test_state {S : Type} (tsd : Option S) :
    (RunAction.fit ∈ single_run_phases tsd ↔ tsd = none) ∧
    (single_run_phases tsd).countP
        (fun ac => match ac with | RunAction.testRun => true | _ => false) = 1 ∧
    (single_run_phases tsd).getLast? = some RunAction.testRun ∧
    (∀ sd : S, RunAction.loadStateDict sd ∈ single_run_phases (some sd)) := by
  refine ⟨?_, ?_, ?_, fun sd => by simp [single_run_phases]⟩ <;>
    cases tsd <;> simp [single_run_phases, List.countP_cons]

/-- C7: the optimizer is Adam with initial learning rate 1e-3 and betas
(0.9, 0.999); the scheduler is an ExponentialWarmup targeting `opt.lr` with
warmup length `training.n_epochs_warmup * epoch_len` steps, registered with
interval "step". -/
theorem optimizer_scheduler_spec (opt_lr : ℚ) (n_epochs_warmup epoch_length : Nat) :
    adam_opt.lr = 1 / 1000 ∧ adam_opt.beta1 = 9 / 10 ∧ adam_opt.beta2 = 999 / 1000 ∧
    (exp_scheduler opt_lr n_epochs_warmup epoch_length).target_lr = opt_lr ∧
    (exp_scheduler opt_lr n_epochs_warmup epoch_length).exp_steps =
      n_epochs_warmup * epoch_length ∧
    (exp_scheduler opt_lr n_epochs_warmup epoch_length).interval = SchedInterval.step :=
  ⟨rfl, rfl, rfl, rfl, rfl, rfl⟩

/-- C8: with `fast_dev_run` the trainer limits train, validation and test to
2 batches each, runs 3 epochs, and logs and flushes every step; otherwise
the three limits are the full data (fraction 1.0), the epoch count is
`training.n_epochs`, and the log and flush frequencies are 40 and 100
steps. -/
theorem trainer_settings_spec (n_epochs_cfg : Nat) :
    trainer_settings true n_epochs_cfg =
      { max_epochs := 3
        log_every_n_steps := 1
        flush_logs_every_n_steps := 1
        limit_train_batches := BatchLimit.nBatches 2
        limit_val_batches := BatchLimit.nBatches 2
        limit_test_batches := BatchLimit.nBatches 2 } ∧
    trainer_settings false n_epochs_cfg =
      { max_epochs := n_epochs_cfg
        log_every_n_steps := 40
        flush_logs_every_n_steps := 100
        limit_train_batches := BatchLimit.fraction 1
        limit_val_batches := BatchLimit.fraction 1
        limit_test_batches := BatchLimit.fraction 1 } :=
  ⟨rfl, rfl⟩

/-- C9: the global seeding calls (torch, numpy, random, lightning) run iff
`training.seed` is truthy; a seed of 0 skips all of them, while the weak
split still receives the seed value unchanged as its random state. -/
theorem seeding_iff_truthy (seed : Int) :
    ((main_seeding seed).globalSeeding ≠ [] ↔ seed ≠ 0) ∧
    (main_seeding 0).globalSeeding = [] ∧
    (main_seeding seed).weakSplitRandomState = seed := by
  refine ⟨?_, by simp [main_seeding], rfl⟩
  by_cases h : seed = 0 <;> simp [main_seeding, h]

/-- C10: the validation dataset concatenates the synthetic-validation,
weak-validation and devtest views; the test dataset is that same devtest
view (so every validation pass also covers the test data); and these three
views are exactly the ones constructed with `return_filename=True`. -/
theorem validation_and_test_views :
    valid_dataset =
      [DatasetView.synth_val, DatasetView.weak_val, DatasetView.devtest_dataset] ∧
    test_dataset = DatasetView.devtest_dataset ∧
    test_dataset ∈ valid_dataset ∧
    constructedViews.filter return_filename = valid_dataset := by
  decide

end TrainSed
